import Mathlib

/-!
Verification of the three build-utility scripts of `class-notes-frontend`:
`generate_app_icons.py`, `fix_project.py`, `download_google_logo.py`.

The scripts perform a linear sequence of filesystem and image operations.
We embed them shallowly: the filesystem is an explicit state (an association
list from paths to files, a set of directories, the printed output, and a
chronological trace of every write performed), images are an inductive type
mirroring exactly the PIL operations the scripts use (`Image.new`,
`Image.open`, `convert`, `resize`, `save`), and text file contents are lists
of characters.  `sys.exit(n)` and uncaught exceptions are modelled by an
explicit exit status.
-/

/-- An RGBA pixel value, one `Nat` per channel (PIL uses 0..255). -/
structure Pixel where
  r : Nat
  g : Nat
  b : Nat
  a : Nat
deriving DecidableEq, Repr

/-- Images as built by the PIL calls of the scripts: `Image.new(mode, (w, h), color)`
produces a uniform image, `Image.open` yields some source image with an
abstract payload `data`, `img.convert(mode)` reinterprets the color mode and
`img.resize((w, h), resample)` produces a resized copy. -/
inductive Img where
  | new (mode : String) (w h : Nat) (color : Pixel)
  | src (mode : String) (w h : Nat) (data : Nat)
  | convert (mode : String) (orig : Img)
  | resized (w h : Nat) (resample : String) (orig : Img)
deriving DecidableEq, Repr

/-- Pixel width of an image (`img.size[0]` in PIL). -/
def Img.width : Img → Nat
  | .new _ w _ _ => w
  | .src _ w _ _ => w
  | .convert _ orig => orig.width
  | .resized w _ _ _ => w

/-- Pixel height of an image (`img.size[1]` in PIL). -/
def Img.height : Img → Nat
  | .new _ _ h _ => h
  | .src _ _ h _ => h
  | .convert _ orig => orig.height
  | .resized _ h _ _ => h

/-- Color mode of an image (`img.mode` in PIL); `convert` changes it,
`resize` preserves it. -/
def Img.mode : Img → String
  | .new m _ _ _ => m
  | .src m _ _ _ => m
  | .convert m _ => m
  | .resized _ _ _ orig => orig.mode

/-- The pixel at coordinate `(x, y)`: known (and constant) for an image
created by `Image.new` with a fill color, unknown (`none`) for any other
image. -/
def Img.pixelAt : Img → Nat → Nat → Option Pixel
  | .new _ w h c, x, y => if x < w ∧ y < h then some c else none
  | _, _, _ => none

/-- One descriptor of the `images` list of a `Contents.json` manifest.
Fields that a given entry omits in the JSON literal are `none` / `[]`. -/
structure ImgEntry where
  filename : String
  idiom : String
  platform : Option String
  scale : Option String
  size : Option String
  appearances : List (String × String)
deriving DecidableEq, Repr

/-- A `Contents.json` manifest: the `images` list plus the `info` object. -/
structure Manifest where
  images : List ImgEntry
  author : String
  version : Nat
deriving DecidableEq, Repr

/-- A file on disk: a saved image, a plain text file (content as the list of
its characters), or a serialized manifest. -/
inductive File where
  | image (img : Img)
  | text (content : List Char)
  | manifest (m : Manifest)
deriving DecidableEq, Repr

/-- Filesystem-and-console state threaded through a script run.  `files` maps
paths to contents (most recent write first), `dirs` is the set of directories
created, `output` the lines printed so far (chronological), `trace` the
chronological log of every file write the run performed. -/
structure FState where
  dirs : List String
  files : List (String × File)
  output : List String
  trace : List (String × File)
deriving DecidableEq, Repr

/-- Writing a file (`save` / `open(..., "w")`): overwrites any previous file
at the same path and records the write in the trace. -/
def FState.write (st : FState) (p : String) (f : File) : FState :=
  { st with
    files := (p, f) :: st.files.filter (fun e => !(e.1 == p)),
    trace := st.trace ++ [(p, f)] }

/-- Python `print(s)`: appends one line to the console output. -/
def FState.print (st : FState) (s : String) : FState :=
  { st with output := st.output ++ [s] }

/-- Model of `os.makedirs(d, exist_ok=True)`: creates the directory if absent, and is
not an error when it already exists. -/
def FState.makedirs (st : FState) (d : String) : FState :=
  if st.dirs.contains d then st else { st with dirs := st.dirs ++ [d] }

/-- Model of `os.path.exists(p)`. -/
def FState.pathExists (st : FState) (p : String) : Bool :=
  (st.files.lookup p).isSome || st.dirs.contains p

/-- Model of `os.path.join(a, b)` for the relative paths the scripts use. -/
def pathJoin (a b : String) : String :=
  a ++ "/" ++ b

/-- The writes a run performed, given the state before and after the run
(the run only ever appends to the trace). -/
def newWrites (st st' : FState) : List (String × File) :=
  st'.trace.drop st.trace.length

/-- How a script run ends: `sys.exit(n)` / normal completion give `code n`;
an exception that no handler catches gives `uncaught` (the language-default
error exit). -/
inductive ExitStatus where
  | code (n : Nat)
  | uncaught
deriving DecidableEq, Repr

namespace FixProject

/-- The fixed path `fix_project.py` rewrites. -/
def projPath : String :=
  "class-notes-frontend.xcodeproj/project.pbxproj"

/-- Python `sub in hay` substring test, on character lists. -/
def containsSub (hay sub : List Char) : Bool :=
  hay.tails.any (fun t => sub.isPrefixOf t)

/-- The filter condition of the loop in `fix_project.py`:
`"subscription.proto" in line and ("PBXBuildFile" in line or "Sources" in line)` (single-quoted in the source). -/
def shouldRemove (line : List Char) : Bool :=
  containsSub line ("subscription.proto").toList &&
    (containsSub line ("PBXBuildFile").toList || containsSub line ("Sources").toList)

/-- Python `content.split('\n')`: split on every newline, no collapsing;
the empty content yields `[[]]` (Python: `[""]`). -/
def splitLines : List Char → List (List Char)
  | [] => [[]]
  | c :: cs =>
    if c = '\n' then [] :: splitLines cs
    else
      match splitLines cs with
      | [] => [[c]]
      | l :: ls => (c :: l) :: ls

/-- Python `'\n'.join(lines)`. -/
def joinLines : List (List Char) → List Char
  | [] => []
  | [l] => l
  | l :: ls => l ++ '\n' :: joinLines ls

/-- Python `line.strip()`: drop leading and trailing whitespace. -/
def pyStrip (l : List Char) : List Char :=
  ((l.dropWhile Char.isWhitespace).reverse.dropWhile Char.isWhitespace).reverse

/-- The message printed for a removed line. -/
def removeMsg (line : List Char) : String :=
  "Removing line: " ++ (pyStrip line).asString

/-- The `for line in lines` loop of `fix_project.py`: returns the kept lines
(in order) and the chronological list of printed removal messages. -/
def scrubLoop : List (List Char) → List (List Char) × List String
  | [] => ([], [])
  | line :: rest =>
    let r := scrubLoop rest
    if shouldRemove line then (r.1, removeMsg line :: r.2)
    else (line :: r.1, r.2)

/-- The whole script: read the project file, filter its lines, write it back,
print a final message.  If the file is missing or not a text file, the `open`
call raises and nothing catches it. -/
def run (st : FState) : FState × ExitStatus :=
  match st.files.lookup projPath with
  | some (.text content) =>
    let lines := splitLines content
    let r := scrubLoop lines
    let content2 := joinLines r.1
    let st := r.2.foldl FState.print st
    let st := st.write projPath (.text content2)
    let st := st.print ("Fixed project configuration - removed proto file from build sources")
    (st, .code 0)
  | _ => (st, .uncaught)

end FixProject

namespace GenerateAppIcons

/-- Model of `Image.open(p)` on the modelled filesystem: succeeds on an image file,
raises (here: returns the exception message) when the path holds a non-image
file or nothing at all. -/
def imageOpen (st : FState) (p : String) : Except String Img :=
  match st.files.lookup p with
  | some (.image img) => .ok img
  | some _ => .error ("cannot identify image file")
  | none => .error ("No such file or directory")

/-- The fixed table of the 13 required `(filename, size)` pairs. -/
def icon_sizes : List (String × Nat) :=
  [("AppIcon-iOS.png", 1024),
   ("AppIcon-iOS-Dark.png", 1024),
   ("AppIcon-iOS-Tinted.png", 1024),
   ("AppIcon-16.png", 16),
   ("AppIcon-16@2x.png", 32),
   ("AppIcon-32.png", 32),
   ("AppIcon-32@2x.png", 64),
   ("AppIcon-128.png", 128),
   ("AppIcon-128@2x.png", 256),
   ("AppIcon-256.png", 256),
   ("AppIcon-256@2x.png", 512),
   ("AppIcon-512.png", 512),
   ("AppIcon-512@2x.png", 1024)]

/-- The `Contents.json` dictionary written by `generate_icons`, verbatim from
the script (entry fields: filename, idiom, platform, scale, size,
appearances). -/
def contents : Manifest :=
  { images :=
      [⟨"AppIcon-iOS.png", "universal", some ("ios"), none, some ("1024x1024"), []⟩,
       ⟨"AppIcon-iOS-Dark.png", "universal", some ("ios"), none, some ("1024x1024"),
         [("luminosity", "dark")]⟩,
       ⟨"AppIcon-iOS-Tinted.png", "universal", some ("ios"), none, some ("1024x1024"),
         [("luminosity", "tinted")]⟩,
       ⟨"AppIcon-16.png", "mac", none, some ("1x"), some ("16x16"), []⟩,
       ⟨"AppIcon-16@2x.png", "mac", none, some ("2x"), some ("16x16"), []⟩,
       ⟨"AppIcon-32.png", "mac", none, some ("1x"), some ("32x32"), []⟩,
       ⟨"AppIcon-32@2x.png", "mac", none, some ("2x"), some ("32x32"), []⟩,
       ⟨"AppIcon-128.png", "mac", none, some ("1x"), some ("128x128"), []⟩,
       ⟨"AppIcon-128@2x.png", "mac", none, some ("2x"), some ("128x128"), []⟩,
       ⟨"AppIcon-256.png", "mac", none, some ("1x"), some ("256x256"), []⟩,
       ⟨"AppIcon-256@2x.png", "mac", none, some ("2x"), some ("256x256"), []⟩,
       ⟨"AppIcon-512.png", "mac", none, some ("1x"), some ("512x512"), []⟩,
       ⟨"AppIcon-512@2x.png", "mac", none, some ("2x"), some ("512x512"), []⟩],
    author := "xcode",
    version := 1 }

/-- The `for filename, size in icon_sizes` loop.  `fails` is the failure
oracle for the resize-and-save step of a given output path: when it fires,
the exception propagates (result flag `false`) and the loop stops with the
state written so far; no handler exists in the script. -/
def genLoop (fails : String → Bool) (source_img : Img) (output_dir : String) :
    List (String × Nat) → FState → FState × Bool
  | [], st => (st, true)
  | (filename, size) :: rest, st =>
    let output_path := pathJoin output_dir filename
    if fails output_path then (st, false)
    else
      let resized_img := Img.resized size size ("LANCZOS") source_img
      let st := st.write output_path (.image resized_img)
      let st := st.print ("Generated: " ++ filename ++ " (" ++ toString size ++ "x"
        ++ toString size ++ ")")
      genLoop fails source_img output_dir rest st

/-- The RGBA normalization right after `Image.open`:
`if source_img.mode != "RGBA": source_img = source_img.convert("RGBA")` (single-quoted in the source). -/
def toRGBA (img : Img) : Img :=
  if img.mode != "RGBA" then Img.convert ("RGBA") img else img

/-- The function `generate_icons(source_image_path, output_dir)`: create the output
directory, open the source image inside a `try`/`except` that prints and
exits 1 on failure, convert to RGBA if needed, generate the 13 sizes, then
write `Contents.json` and print the closing messages. -/
def generate_icons (fails : String → Bool) (source_image_path output_dir : String)
    (st : FState) : FState × ExitStatus :=
  let st := st.makedirs output_dir
  match imageOpen st source_image_path with
  | .error e => (st.print ("Error opening image: " ++ e), .code 1)
  | .ok img0 =>
    let source_img := toRGBA img0
    let r := genLoop fails source_img output_dir icon_sizes st
    if r.2 then
      let contents_json_path := pathJoin output_dir ("Contents.json")
      let st := r.1.write contents_json_path (.manifest contents)
      let st := st.print ("\nUpdated Contents.json")
      let st := st.print ("\nAll icons generated successfully in: " ++ output_dir)
      (st, .code 0)
    else (r.1, .uncaught)

/-- The function `main()`: `argv` is the full `sys.argv` including the program name.
Wrong argument count prints the usage lines and exits 1; a nonexistent
source path prints an error and exits 1; otherwise `generate_icons` runs on
the fixed output directory. -/
def main (fails : String → Bool) (argv : List String) (st : FState) :
    FState × ExitStatus :=
  if argv.length != 2 then
    let st := st.print ("Usage: python3 generate_app_icons.py <source_image_path>")
    let st := st.print ("Example: python3 generate_app_icons.py my_icon.png")
    (st, .code 1)
  else
    let source_image := argv.getD 1 ("")
    let output_dir := "Assets.xcassets/AppIcon.appiconset"
    if !(st.pathExists source_image) then
      (st.print ("Error: Source image \x27" ++ source_image ++ "\x27 not found"), .code 1)
    else
      generate_icons fails source_image output_dir st

end GenerateAppIcons

namespace DownloadGoogleLogo

/-- The fixed output directory `Assets.xcassets/google-logo.imageset`. -/
def google_logo_dir : String :=
  pathJoin ("Assets.xcassets") "google-logo.imageset"

/-- The `sizes` table `[(24, "1x"), (48, "2x"), (72, "3x")]`. -/
def sizes : List (Nat × String) :=
  [(24, "1x"), (48, "2x"), (72, "3x")]

/-- The fill color passed to `Image.new`: fully opaque white. -/
def white : Pixel :=
  ⟨255, 255, 255, 255⟩

/-- The filename choice `f"google-logo@{scale}.png" if scale != "1x" else "google-logo.png"`. -/
def logoFilename (scale : String) : String :=
  if scale != "1x" then ("google-logo@") ++ scale ++ ".png" else ("google-logo.png")

/-- The `for size, scale in sizes` loop: create a white RGBA square, save it,
print the confirmation line. -/
def logoLoop : List (Nat × String) → FState → FState
  | [], st => st
  | (size, scale) :: rest, st =>
    let img := Img.new ("RGBA") size size white
    let filename := logoFilename scale
    let filepath := pathJoin google_logo_dir filename
    let st := st.write filepath (.image img)
    let st := st.print ("Created placeholder: " ++ filename)
    logoLoop rest st

/-- The `Contents.json` dictionary of the logo image set, verbatim from the
script. -/
def contents : Manifest :=
  { images :=
      [⟨"google-logo.png", "universal", none, some ("1x"), none, []⟩,
       ⟨"google-logo@2x.png", "universal", none, some ("2x"), none, []⟩,
       ⟨"google-logo@3x.png", "universal", none, some ("3x"), none, []⟩],
    author := "xcode",
    version := 1 }

/-- The function `download_google_logo()`: create the image-set directory (guarded, so an
existing directory is not an error), write the three placeholder images,
write `Contents.json`, print the closing notes. -/
def download_google_logo (st : FState) : FState :=
  let st := st.makedirs google_logo_dir
  let st := logoLoop sizes st
  let contents_path := pathJoin google_logo_dir ("Contents.json")
  let st := st.write contents_path (.manifest contents)
  let st := st.print ("\nGoogle logo placeholder created in: " ++ google_logo_dir)
  let st := st.print
    ("\nIMPORTANT: Replace these placeholder images with the official Google \x27G\x27 logo")
  let st := st.print ("Download from: https://developers.google.com/identity/branding-guidelines")
  let st := st.print ("Use the colored \x27G\x27 logo on white background")
  st

end DownloadGoogleLogo

/-- Keep only the image writes of a write list, with the image pixel
dimensions. -/
def imageDimWrites (ws : List (String × File)) : List (String × Nat × Nat) :=
  ws.filterMap (fun e =>
    match e.2 with
    | .image i => some (e.1, i.width, i.height)
    | _ => none)

/-- The paths of the image files in a write list. -/
def imagePaths (ws : List (String × File)) : List String :=
  ws.filterMap (fun e =>
    match e.2 with
    | .image _ => some e.1
    | _ => none)

/-- The image writes of a write list, as `(path, image)` pairs. -/
def imageWrites (ws : List (String × File)) : List (String × Img) :=
  ws.filterMap (fun e =>
    match e.2 with
    | .image i => some (e.1, i)
    | _ => none)

/-- Is this file a saved image? -/
def isImageFile : File → Bool
  | .image _ => true
  | _ => false

/-- Is this file a serialized manifest? -/
def isManifestFile : File → Bool
  | .manifest _ => true
  | _ => false

/-- The directory entries of `d`: the files whose path lies under `d`. -/
def filesInDir (d : String) (files : List (String × File)) : List (String × File) :=
  files.filter (fun e => (d ++ "/").toList.isPrefixOf e.1.toList)

/-- The image writes `generate_icons` performs on a successful run, in
order: one resized copy of the (RGBA-normalized) source per table entry. -/
def GenerateAppIcons.expectedIconWrites (output_dir : String) (source_img : Img) :
    List (String × File) :=
  GenerateAppIcons.icon_sizes.map (fun p =>
    (pathJoin output_dir p.1, File.image (Img.resized p.2 p.2 ("LANCZOS") source_img)))

/-- The prescribed `(path, width, height)` table of the 13 generated icon
files. -/
def appIconDimTable (output_dir : String) : List (String × Nat × Nat) :=
  [(pathJoin output_dir ("AppIcon-iOS.png"), 1024, 1024),
   (pathJoin output_dir ("AppIcon-iOS-Dark.png"), 1024, 1024),
   (pathJoin output_dir ("AppIcon-iOS-Tinted.png"), 1024, 1024),
   (pathJoin output_dir ("AppIcon-16.png"), 16, 16),
   (pathJoin output_dir ("AppIcon-16@2x.png"), 32, 32),
   (pathJoin output_dir ("AppIcon-32.png"), 32, 32),
   (pathJoin output_dir ("AppIcon-32@2x.png"), 64, 64),
   (pathJoin output_dir ("AppIcon-128.png"), 128, 128),
   (pathJoin output_dir ("AppIcon-128@2x.png"), 256, 256),
   (pathJoin output_dir ("AppIcon-256.png"), 256, 256),
   (pathJoin output_dir ("AppIcon-256@2x.png"), 512, 512),
   (pathJoin output_dir ("AppIcon-512.png"), 512, 512),
   (pathJoin output_dir ("AppIcon-512@2x.png"), 1024, 1024)]

/-- The four writes of one `download_google_logo` run, in order. -/
def DownloadGoogleLogo.expectedLogoWrites : List (String × File) :=
  [(pathJoin DownloadGoogleLogo.google_logo_dir ("google-logo.png"),
      File.image (Img.new ("RGBA") 24 24 DownloadGoogleLogo.white)),
   (pathJoin DownloadGoogleLogo.google_logo_dir ("google-logo@2x.png"),
      File.image (Img.new ("RGBA") 48 48 DownloadGoogleLogo.white)),
   (pathJoin DownloadGoogleLogo.google_logo_dir ("google-logo@3x.png"),
      File.image (Img.new ("RGBA") 72 72 DownloadGoogleLogo.white)),
   (pathJoin DownloadGoogleLogo.google_logo_dir ("Contents.json"),
      File.manifest DownloadGoogleLogo.contents)]

/-- The listing of `Assets.xcassets/google-logo.imageset` after a
`download_google_logo` run starting from an empty directory (most recent
write first, matching the association-list order). -/
def logoDirListing : List (String × File) :=
  [(pathJoin DownloadGoogleLogo.google_logo_dir ("Contents.json"),
      File.manifest DownloadGoogleLogo.contents),
   (pathJoin DownloadGoogleLogo.google_logo_dir ("google-logo@3x.png"),
      File.image (Img.new ("RGBA") 72 72 DownloadGoogleLogo.white)),
   (pathJoin DownloadGoogleLogo.google_logo_dir ("google-logo@2x.png"),
      File.image (Img.new ("RGBA") 48 48 DownloadGoogleLogo.white)),
   (pathJoin DownloadGoogleLogo.google_logo_dir ("google-logo.png"),
      File.image (Img.new ("RGBA") 24 24 DownloadGoogleLogo.white))]

/-- A filesystem with nothing on it: used to instantiate the universally
quantified theorems on concrete runs. -/
def emptyState : FState :=
  ⟨[], [], [], []⟩

/-- A concrete 2048x2048 RGB source image. -/
def srcImage : Img :=
  Img.src ("RGB") 2048 2048 0

/-- A filesystem holding one valid source image at `icon.png`. -/
def iconState : FState :=
  ⟨[], [("icon.png", File.image srcImage)], [], []⟩

/-- A filesystem holding a text file (not an image) at `icon.png`. -/
def textIconState : FState :=
  ⟨[], [("icon.png", File.text ("x").toList)], [], []⟩

/-- A concrete project-file content with one line that mentions
`subscription.proto` inside a `Sources` build phase. -/
def pbxSample : List Char :=
  "a\n\tsubscription.proto in Sources \nkeep\n".toList

/-- A concrete project-file content with no removable line. -/
def pbxClean : List Char :=
  "a\nsubscription.proto alone\nkeep\n".toList

/-- A filesystem holding the sample project file. -/
def pbxState : FState :=
  ⟨[], [(FixProject.projPath, File.text pbxSample)], [], []⟩

/-- A filesystem holding the clean project file. -/
def pbxCleanState : FState :=
  ⟨[], [(FixProject.projPath, File.text pbxClean)], [], []⟩

theorem lookup_filter_ne (L : List (String × File)) (p q : String) (h : q ≠ p) :
    (L.filter (fun e => !(e.1 == p))).lookup q = L.lookup q := by
  induction L with
  | nil => rfl
  | cons hd tl ih =>
    by_cases hq : hd.1 = p
    · have h1 : (hd.1 == p) = true := by simp [hq]
      have h2 : (q == hd.1) = false := by simp [hq, h]
      simp [List.filter_cons, h1, List.lookup, h2, ih]
    · have h1 : (hd.1 == p) = false := by simp [hq]
      simp [List.filter_cons, h1, List.lookup, ih]

theorem FState.lookup_write (st : FState) (p q : String) (f : File) :
    ((st.write p f).files).lookup q = if q = p then some f else st.files.lookup q := by
  by_cases h : q = p
  · subst h
    simp [FState.write, List.lookup]
  · have h2 : (q == p) = false := by simp [h]
    simp [FState.write, List.lookup, h2, h, lookup_filter_ne _ _ _ h]

theorem foldl_print_eq (logs : List String) (st : FState) :
    logs.foldl FState.print st = { st with output := st.output ++ logs } := by
  induction logs generalizing st with
  | nil => simp
  | cons l ls ih => simp [List.foldl, FState.print, ih]

theorem scrubLoop_eq (ls : List (List Char)) :
    FixProject.scrubLoop ls =
      (ls.filter (fun l => !FixProject.shouldRemove l),
       (ls.filter FixProject.shouldRemove).map FixProject.removeMsg) := by
  induction ls with
  | nil => rfl
  | cons hd tl ih =>
    cases h : FixProject.shouldRemove hd with
    | true => simp [FixProject.scrubLoop, h, ih]
    | false => simp [FixProject.scrubLoop, h, ih]

theorem splitLines_ne_nil (cs : List Char) : FixProject.splitLines cs ≠ [] := by
  cases cs with
  | nil => simp [FixProject.splitLines]
  | cons c cs =>
    by_cases h : c = '\n'
    · simp [FixProject.splitLines, h]
    · simp only [FixProject.splitLines, if_neg h]
      cases FixProject.splitLines cs <;> simp

theorem joinLines_splitLines (cs : List Char) :
    FixProject.joinLines (FixProject.splitLines cs) = cs := by
  induction cs with
  | nil => rfl
  | cons c cs ih =>
    by_cases h : c = '\n'
    · subst h
      simp only [FixProject.splitLines, if_pos rfl]
      cases hs : FixProject.splitLines cs with
      | nil => exact absurd hs (splitLines_ne_nil cs)
      | cons l ls =>
        rw [hs] at ih
        simp [FixProject.joinLines, ih]
    · simp only [FixProject.splitLines, if_neg h]
      cases hs : FixProject.splitLines cs with
      | nil => exact absurd hs (splitLines_ne_nil cs)
      | cons l ls =>
        rw [hs] at ih
        cases ls with
        | nil =>
          simp [FixProject.joinLines] at ih ⊢
          exact ih
        | cons l2 ls2 =>
          simp [FixProject.joinLines] at ih ⊢
          exact ih

/-- C5: on any project-file content, `fix_project.py` removes exactly the
lines that contain `subscription.proto` together with `PBXBuildFile` or
`Sources`; the rewritten file is the newline-join of precisely the other
lines, kept verbatim and in their original order (a sublist of the input
lines), and each removed line is logged with a `Removing line:` message. -/
theorem fix_project_filters_exactly (st : FState) (content : List Char)
    (h : st.files.lookup FixProject.projPath = some (.text content)) :
    (FixProject.run st).2 = .code 0 ∧
    (FixProject.run st).1.files.lookup FixProject.projPath =
      some (.text (FixProject.joinLines
        ((FixProject.splitLines content).filter (fun l => !FixProject.shouldRemove l)))) ∧
    ((FixProject.splitLines content).filter
        (fun l => !FixProject.shouldRemove l)).Sublist (FixProject.splitLines content) ∧
    (∀ l ∈ (FixProject.splitLines content).filter (fun l => !FixProject.shouldRemove l),
        FixProject.shouldRemove l = false) ∧
    (∀ l ∈ FixProject.splitLines content, FixProject.shouldRemove l = false →
        l ∈ (FixProject.splitLines content).filter (fun l => !FixProject.shouldRemove l)) ∧
    (FixProject.run st).1.output = st.output
      ++ ((FixProject.splitLines content).filter FixProject.shouldRemove).map FixProject.removeMsg
      ++ ["Fixed project configuration - removed proto file from build sources"] := by
  have hrun : FixProject.run st =
      (((((FixProject.scrubLoop (FixProject.splitLines content)).2.foldl FState.print st).write
          FixProject.projPath
          (.text (FixProject.joinLines (FixProject.scrubLoop (FixProject.splitLines content)).1))).print
          ("Fixed project configuration - removed proto file from build sources")),
        .code 0) := by
    simp only [FixProject.run, h]
  rw [hrun]
  refine ⟨rfl, ?_, List.filter_sublist _, ?_, ?_, ?_⟩
  · simp only [FState.print, scrubLoop_eq]
    rw [FState.lookup_write]
    simp
  · intro l hl
    simp only [List.mem_filter, Bool.not_eq_true'] at hl
    exact hl.2
  · intro l hl hr
    simp [List.mem_filter, hl, hr]
  · simp [FState.print, FState.write, scrubLoop_eq, foldl_print_eq]

/-- C5 witness: on the concrete sample project file, the run exits 0,
removes the matching line, keeps the others, and logs the removal. -/
theorem fix_project_filters_exactly_witness :
    (FixProject.run pbxState).2 = .code 0 ∧
    (FixProject.run pbxState).1.files.lookup FixProject.projPath =
      some (.text (FixProject.joinLines
        ((FixProject.splitLines pbxSample).filter (fun l => !FixProject.shouldRemove l)))) ∧
    ((FixProject.splitLines pbxSample).filter
        (fun l => !FixProject.shouldRemove l)).Sublist (FixProject.splitLines pbxSample) ∧
    (FixProject.run pbxState).1.output = pbxState.output
      ++ ((FixProject.splitLines pbxSample).filter FixProject.shouldRemove).map FixProject.removeMsg
      ++ ["Fixed project configuration - removed proto file from build sources"] := by
  have h := fix_project_filters_exactly pbxState pbxSample (by rfl)
  exact ⟨h.1, h.2.1, h.2.2.1, h.2.2.2.2.2⟩

/-- C8: when no line of the project file contains both the target substring
and a context marker, `fix_project.py` writes back content that is
character-for-character identical to what it read (split on newline followed
by rejoin with newline is the identity), in a single file write. -/
theorem fix_project_identity (st : FState) (content : List Char)
    (h : st.files.lookup FixProject.projPath = some (.text content))
    (h2 : ∀ l ∈ FixProject.splitLines content, FixProject.shouldRemove l = false) :
    (FixProject.run st).1.files.lookup FixProject.projPath = some (.text content) ∧
    newWrites st (FixProject.run st).1 = [(FixProject.projPath, File.text content)] := by
  have hfilter : (FixProject.splitLines content).filter
      (fun l => !FixProject.shouldRemove l) = FixProject.splitLines content := by
    rw [List.filter_eq_self]
    intro l hl
    simp [h2 l hl]
  have hrun : FixProject.run st =
      (((((FixProject.scrubLoop (FixProject.splitLines content)).2.foldl FState.print st).write
          FixProject.projPath
          (.text (FixProject.joinLines (FixProject.scrubLoop (FixProject.splitLines content)).1))).print
          ("Fixed project configuration - removed proto file from build sources")),
        .code 0) := by
    simp only [FixProject.run, h]
  rw [hrun]
  constructor
  · simp only [FState.print, scrubLoop_eq, hfilter, joinLines_splitLines]
    rw [FState.lookup_write]
    simp
  · simp [newWrites, FState.print, FState.write, scrubLoop_eq, hfilter,
      joinLines_splitLines, foldl_print_eq]

/-- C8 witness: on the concrete clean project file (mentions the proto but
never next to a marker), the run writes back the identical content. -/
theorem fix_project_identity_witness :
    (FixProject.run pbxCleanState).1.files.lookup FixProject.projPath
        = some (.text pbxClean) ∧
    newWrites pbxCleanState (FixProject.run pbxCleanState).1
        = [(FixProject.projPath, File.text pbxClean)] :=
  fix_project_identity pbxCleanState pbxClean (by rfl) (by decide)

theorem makedirs_files (st : FState) (d : String) : (st.makedirs d).files = st.files := by
  unfold FState.makedirs
  split <;> rfl

theorem makedirs_output (st : FState) (d : String) : (st.makedirs d).output = st.output := by
  unfold FState.makedirs
  split <;> rfl

theorem makedirs_trace (st : FState) (d : String) : (st.makedirs d).trace = st.trace := by
  unfold FState.makedirs
  split <;> rfl

theorem genLoop_trace_flag (fails : String → Bool) (img : Img) (d : String)
    (l : List (String × Nat)) (st : FState)
    (hf : ∀ p ∈ l, fails (pathJoin d p.1) = false) :
    (GenerateAppIcons.genLoop fails img d l st).1.trace =
      st.trace ++ l.map (fun p =>
        (pathJoin d p.1, File.image (Img.resized p.2 p.2 ("LANCZOS") img))) ∧
    (GenerateAppIcons.genLoop fails img d l st).2 = true := by
  induction l generalizing st with
  | nil => simp [GenerateAppIcons.genLoop]
  | cons hd tl ih =>
    obtain ⟨fn, sz⟩ := hd
    have h1 : fails (pathJoin d fn) = false := hf (fn, sz) (List.mem_cons_self _ _)
    simp only [GenerateAppIcons.genLoop, h1, Bool.false_eq_true, if_false]
    constructor
    · rw [(ih _ (fun p hp => hf p (List.mem_cons_of_mem _ hp))).1]
      simp [FState.write, FState.print]
    · exact (ih _ (fun p hp => hf p (List.mem_cons_of_mem _ hp))).2

theorem genLoop_flag_false (fails : String → Bool) (img : Img) (d : String)
    (l : List (String × Nat)) (st : FState)
    (hf : ∃ p ∈ l, fails (pathJoin d p.1) = true) :
    (GenerateAppIcons.genLoop fails img d l st).2 = false := by
  induction l generalizing st with
  | nil => simp at hf
  | cons hd tl ih =>
    obtain ⟨fn, sz⟩ := hd
    by_cases h1 : fails (pathJoin d fn) = true
    · simp [GenerateAppIcons.genLoop, h1]
    · have h1' : fails (pathJoin d fn) = false := by simpa using h1
      obtain ⟨p, hp, hpf⟩ := hf
      rcases List.mem_cons.mp hp with rfl | hmem
      · rw [h1'] at hpf
        cases hpf
      · simp only [GenerateAppIcons.genLoop, h1', Bool.false_eq_true, if_false]
        exact ih _ ⟨p, hmem, hpf⟩

theorem genLoop_lookup (fails : String → Bool) (img : Img) (d : String)
    (l : List (String × Nat)) (st : FState) (q : String)
    (hq : ∀ p ∈ l, pathJoin d p.1 ≠ q) :
    ((GenerateAppIcons.genLoop fails img d l st).1.files).lookup q = st.files.lookup q := by
  induction l generalizing st with
  | nil => rfl
  | cons hd tl ih =>
    obtain ⟨fn, sz⟩ := hd
    by_cases h1 : fails (pathJoin d fn) = true
    · simp [GenerateAppIcons.genLoop, h1]
    · have h1' : fails (pathJoin d fn) = false := by simpa using h1
      simp only [GenerateAppIcons.genLoop, h1', Bool.false_eq_true, if_false]
      rw [ih _ (fun p hp => hq p (List.mem_cons_of_mem _ hp))]
      show ((FState.write st _ _).files).lookup q = st.files.lookup q
      rw [FState.lookup_write]
      have hne := hq (fn, sz) (List.mem_cons_self _ _)
      rw [if_neg (fun hqe => hne hqe.symm)]

theorem genLoop_trace_shape (fails : String → Bool) (img : Img) (d : String)
    (l : List (String × Nat)) (st : FState) :
    ∃ ws, (GenerateAppIcons.genLoop fails img d l st).1.trace = st.trace ++ ws ∧
      ∀ w ∈ ws, ∃ p ∈ l, w.1 = pathJoin d p.1 := by
  induction l generalizing st with
  | nil => exact ⟨[], by simp [GenerateAppIcons.genLoop], by simp⟩
  | cons hd tl ih =>
    obtain ⟨fn, sz⟩ := hd
    by_cases h1 : fails (pathJoin d fn) = true
    · exact ⟨[], by simp [GenerateAppIcons.genLoop, h1], by simp⟩
    · have h1' : fails (pathJoin d fn) = false := by simpa using h1
      obtain ⟨ws, hws, hmem⟩ := ih ((st.write (pathJoin d fn)
          (.image (Img.resized sz sz ("LANCZOS") img))).print
          ("Generated: " ++ fn ++ " (" ++ toString sz ++ "x" ++ toString sz ++ ")"))
      refine ⟨(pathJoin d fn, File.image (Img.resized sz sz ("LANCZOS") img)) :: ws, ?_, ?_⟩
      · simp only [GenerateAppIcons.genLoop, h1', Bool.false_eq_true, if_false]
        rw [hws]
        simp [FState.write, FState.print]
      · intro w hw
        rcases List.mem_cons.mp hw with rfl | hw2
        · exact ⟨(fn, sz), List.mem_cons_self _ _, rfl⟩
        · obtain ⟨p, hp, hpe⟩ := hmem w hw2
          exact ⟨p, List.mem_cons_of_mem _ hp, hpe⟩

theorem generate_icons_ok (fails : String → Bool) (st : FState)
    (src output_dir : String) (img : Img)
    (h : st.files.lookup src = some (.image img))
    (hf : ∀ p ∈ GenerateAppIcons.icon_sizes, fails (pathJoin output_dir p.1) = false) :
    (GenerateAppIcons.generate_icons fails src output_dir st).2 = .code 0 ∧
    (GenerateAppIcons.generate_icons fails src output_dir st).1.trace =
      st.trace ++ (GenerateAppIcons.expectedIconWrites output_dir (GenerateAppIcons.toRGBA img)
      ++ [(pathJoin output_dir ("Contents.json"), File.manifest GenerateAppIcons.contents)]) := by
  have hopen : GenerateAppIcons.imageOpen (st.makedirs output_dir) src = .ok img := by
    unfold GenerateAppIcons.imageOpen
    rw [makedirs_files, h]
  have hloop := genLoop_trace_flag fails (GenerateAppIcons.toRGBA img) output_dir
    GenerateAppIcons.icon_sizes (st.makedirs output_dir) hf
  simp only [GenerateAppIcons.generate_icons, hopen]
  simp only [hloop.2, if_true]
  constructor
  · simp
  · simp only [FState.print, FState.write]
    rw [hloop.1, makedirs_trace]
    simp [GenerateAppIcons.expectedIconWrites]

/-- C1: for every filesystem holding a valid source image, `generate_icons`
writes exactly 13 image files, whose paths and pixel dimensions are exactly
the prescribed table: the three iOS variants at 1024x1024 and the ten macOS
files at 16, 32, 32, 64, 128, 256, 256, 512, 512 and 1024 pixels. -/
theorem generate_icons_dimension_table (st : FState) (src output_dir : String) (img : Img)
    (h : st.files.lookup src = some (.image img)) :
    imageDimWrites (newWrites st
        (GenerateAppIcons.generate_icons (fun _ => false) src output_dir st).1)
      = appIconDimTable output_dir ∧
    (imageDimWrites (newWrites st
        (GenerateAppIcons.generate_icons (fun _ => false) src output_dir st).1)).length = 13 := by
  obtain ⟨-, htrace⟩ := generate_icons_ok (fun _ => false) st src output_dir img h (by simp)
  have hnw : newWrites st
      (GenerateAppIcons.generate_icons (fun _ => false) src output_dir st).1
      = GenerateAppIcons.expectedIconWrites output_dir (GenerateAppIcons.toRGBA img)
        ++ [(pathJoin output_dir ("Contents.json"), File.manifest GenerateAppIcons.contents)] := by
    rw [newWrites, htrace, List.drop_left]
  rw [hnw]
  constructor
  · simp [imageDimWrites, GenerateAppIcons.expectedIconWrites, GenerateAppIcons.icon_sizes,
      appIconDimTable, Img.width, Img.height]
  · simp [imageDimWrites, GenerateAppIcons.expectedIconWrites, GenerateAppIcons.icon_sizes,
      Img.width, Img.height]

/-- C1 witness: the concrete run on a 2048x2048 RGB source image. -/
theorem generate_icons_dimension_table_witness :
    imageDimWrites (newWrites iconState
        (GenerateAppIcons.generate_icons (fun _ => false) "icon.png" "out" iconState).1)
      = appIconDimTable ("out") ∧
    (imageDimWrites (newWrites iconState
        (GenerateAppIcons.generate_icons (fun _ => false) "icon.png" "out" iconState).1)).length
      = 13 :=
  generate_icons_dimension_table iconState ("icon.png") "out" srcImage (by rfl)

/-- C2: on every successful run of `generate_icons`, the written manifest has
as many `images` entries as the image files the run generated (13 each), the
manifest itself is written, and each manifest `filename` is the name of an
image file actually written into the output directory. -/
theorem generate_icons_manifest_matches (st : FState) (src output_dir : String) (img : Img)
    (h : st.files.lookup src = some (.image img)) :
    GenerateAppIcons.contents.images.length
      = (imagePaths (newWrites st
          (GenerateAppIcons.generate_icons (fun _ => false) src output_dir st).1)).length ∧
    GenerateAppIcons.contents.images.length = 13 ∧
    (pathJoin output_dir ("Contents.json"), File.manifest GenerateAppIcons.contents) ∈
      newWrites st (GenerateAppIcons.generate_icons (fun _ => false) src output_dir st).1 ∧
    ∀ e ∈ GenerateAppIcons.contents.images,
      pathJoin output_dir e.filename ∈ imagePaths (newWrites st
        (GenerateAppIcons.generate_icons (fun _ => false) src output_dir st).1) := by
  obtain ⟨-, htrace⟩ := generate_icons_ok (fun _ => false) st src output_dir img h (by simp)
  have hnw : newWrites st
      (GenerateAppIcons.generate_icons (fun _ => false) src output_dir st).1
      = GenerateAppIcons.expectedIconWrites output_dir (GenerateAppIcons.toRGBA img)
        ++ [(pathJoin output_dir ("Contents.json"), File.manifest GenerateAppIcons.contents)] := by
    rw [newWrites, htrace, List.drop_left]
  rw [hnw]
  refine ⟨?_, ?_, ?_, ?_⟩
  · simp [imagePaths, GenerateAppIcons.expectedIconWrites, GenerateAppIcons.icon_sizes,
      GenerateAppIcons.contents]
  · simp [GenerateAppIcons.contents]
  · simp
  · intro e he
    simp only [GenerateAppIcons.contents, List.mem_cons, List.not_mem_nil, or_false] at he
    rcases he with rfl | rfl | rfl | rfl | rfl | rfl | rfl | rfl | rfl | rfl | rfl | rfl | rfl <;>
      simp [imagePaths, GenerateAppIcons.expectedIconWrites, GenerateAppIcons.icon_sizes]

/-- C2 witness: the concrete run on a 2048x2048 RGB source image; the
universally quantified conjuncts are instantiated at the first manifest
entry. -/
theorem generate_icons_manifest_matches_witness :
    GenerateAppIcons.contents.images.length
      = (imagePaths (newWrites iconState
          (GenerateAppIcons.generate_icons (fun _ => false) "icon.png" "out" iconState).1)).length ∧
    GenerateAppIcons.contents.images.length = 13 ∧
    (pathJoin ("out") "Contents.json", File.manifest GenerateAppIcons.contents) ∈
      newWrites iconState
        (GenerateAppIcons.generate_icons (fun _ => false) "icon.png" "out" iconState).1 ∧
    pathJoin ("out") "AppIcon-iOS.png" ∈ imagePaths (newWrites iconState
      (GenerateAppIcons.generate_icons (fun _ => false) "icon.png" "out" iconState).1) := by
  have h := generate_icons_manifest_matches iconState ("icon.png") "out" srcImage (by rfl)
  refine ⟨h.1, h.2.1, h.2.2.1, ?_⟩
  have := h.2.2.2 ⟨"AppIcon-iOS.png", "universal", some ("ios"), none, some ("1024x1024"), []⟩
    (by simp [GenerateAppIcons.contents])
  simpa using this

/-- C3: a `main` invocation with an argument count other than one, or with
one argument naming a nonexistent path, exits with status 1, prints the
usage lines (wrong count) or the not-found diagnostic (missing path), and
writes nothing: files, directories and the write trace are untouched. -/
theorem main_usage_guard (fails : String → Bool) (st : FState) (argv : List String)
    (h : argv.length ≠ 2 ∨ st.pathExists (argv.getD 1 ("")) = false) :
    (GenerateAppIcons.main fails argv st).2 = .code 1 ∧
    (GenerateAppIcons.main fails argv st).1.files = st.files ∧
    (GenerateAppIcons.main fails argv st).1.dirs = st.dirs ∧
    newWrites st (GenerateAppIcons.main fails argv st).1 = [] ∧
    ((GenerateAppIcons.main fails argv st).1.output =
        st.output ++ ["Usage: python3 generate_app_icons.py <source_image_path>",
          "Example: python3 generate_app_icons.py my_icon.png"] ∨
      (GenerateAppIcons.main fails argv st).1.output =
        st.output ++ ["Error: Source image \x27" ++ argv.getD 1 ("") ++ "\x27 not found"]) := by
  by_cases hl : argv.length = 2
  · obtain ⟨a, b, rfl⟩ := List.length_eq_two.mp hl
    have hex : st.pathExists b = false := by
      rcases h with h | h
      · exact absurd hl h
      · exact h
    simp [GenerateAppIcons.main, hex, FState.print, newWrites]
  · simp [GenerateAppIcons.main, hl, FState.print, newWrites]

/-- C3 witness: invoking with no arguments at all on the empty filesystem. -/
theorem main_usage_guard_witness :
    (GenerateAppIcons.main (fun _ => false) [] emptyState).2 = .code 1 ∧
    (GenerateAppIcons.main (fun _ => false) [] emptyState).1.files = emptyState.files ∧
    (GenerateAppIcons.main (fun _ => false) [] emptyState).1.dirs = emptyState.dirs ∧
    newWrites emptyState (GenerateAppIcons.main (fun _ => false) [] emptyState).1 = [] ∧
    ((GenerateAppIcons.main (fun _ => false) [] emptyState).1.output =
        emptyState.output ++ ["Usage: python3 generate_app_icons.py <source_image_path>",
          "Example: python3 generate_app_icons.py my_icon.png"] ∨
      (GenerateAppIcons.main (fun _ => false) [] emptyState).1.output =
        emptyState.output
          ++ ["Error: Source image \x27" ++ [].getD 1 ("") ++ "\x27 not found"]) :=
  main_usage_guard (fun _ => false) emptyState [] (Or.inl (by decide))

/-- C4: error taxonomy of the icon generator.  (a) If the source path holds
a file the image library cannot open as an image, the error is caught, the
`Error opening image:` message is printed and the process exits with status
1.  (b) A run over a valid image in which every resize-and-save step
succeeds exits with status 0.  (c) If some resize-and-save step fails, the
exception is uncaught and propagates as the language-default error exit. -/
theorem main_error_taxonomy (prog src : String) :
    (∀ (st : FState) (f : File), st.files.lookup src = some f → isImageFile f = false →
      (GenerateAppIcons.main (fun _ => false) [prog, src] st).2 = .code 1 ∧
      (GenerateAppIcons.main (fun _ => false) [prog, src] st).1.output =
        st.output ++ ["Error opening image: cannot identify image file"]) ∧
    (∀ (st : FState) (img : Img), st.files.lookup src = some (.image img) →
      (GenerateAppIcons.main (fun _ => false) [prog, src] st).2 = .code 0) ∧
    (∀ (st : FState) (img : Img) (fails : String → Bool),
      st.files.lookup src = some (.image img) →
      (∃ p ∈ GenerateAppIcons.icon_sizes,
        fails (pathJoin ("Assets.xcassets/AppIcon.appiconset") p.1) = true) →
      (GenerateAppIcons.main fails [prog, src] st).2 = .uncaught) := by
  refine ⟨?_, ?_, ?_⟩
  · intro st f hf hni
    have hex : st.pathExists src = true := by simp [FState.pathExists, hf]
    have hopen : GenerateAppIcons.imageOpen
        (st.makedirs ("Assets.xcassets/AppIcon.appiconset")) src
        = .error ("cannot identify image file") := by
      unfold GenerateAppIcons.imageOpen
      rw [makedirs_files, hf]
      cases f with
      | image i => simp [isImageFile] at hni
      | text c => rfl
      | manifest m => rfl
    simp [GenerateAppIcons.main, hex, GenerateAppIcons.generate_icons, hopen,
      FState.print, makedirs_output]
  · intro st img himg
    have hex : st.pathExists src = true := by simp [FState.pathExists, himg]
    obtain ⟨hs, -⟩ := generate_icons_ok (fun _ => false) st src
      ("Assets.xcassets/AppIcon.appiconset") img himg (by simp)
    simpa [GenerateAppIcons.main, hex] using hs
  · intro st img fails himg hsome
    have hex : st.pathExists src = true := by simp [FState.pathExists, himg]
    have hopen : GenerateAppIcons.imageOpen
        (st.makedirs ("Assets.xcassets/AppIcon.appiconset")) src = .ok img := by
      unfold GenerateAppIcons.imageOpen
      rw [makedirs_files, himg]
    have hflag := genLoop_flag_false fails (GenerateAppIcons.toRGBA img)
      "Assets.xcassets/AppIcon.appiconset" GenerateAppIcons.icon_sizes
      (st.makedirs ("Assets.xcassets/AppIcon.appiconset")) hsome
    simp [GenerateAppIcons.main, hex, GenerateAppIcons.generate_icons, hopen, hflag]

/-- C4 witness: the three taxonomy branches, each at a concrete input: a
text file where an image is expected, a valid image with no failure, and a
valid image with a failing first save. -/
theorem main_error_taxonomy_witness :
    ((GenerateAppIcons.main (fun _ => false) ["p", "icon.png"] textIconState).2 = .code 1 ∧
      (GenerateAppIcons.main (fun _ => false) ["p", "icon.png"] textIconState).1.output =
        textIconState.output ++ ["Error opening image: cannot identify image file"]) ∧
    (GenerateAppIcons.main (fun _ => false) ["p", "icon.png"] iconState).2 = .code 0 ∧
    (GenerateAppIcons.main (fun _ => true) ["p", "icon.png"] iconState).2 = .uncaught := by
  refine ⟨(main_error_taxonomy ("p") "icon.png").1 textIconState (File.text ("x").toList)
      (by rfl) (by rfl),
    (main_error_taxonomy ("p") "icon.png").2.1 iconState srcImage (by rfl),
    (main_error_taxonomy ("p") "icon.png").2.2 iconState srcImage (fun _ => true)
      (by rfl) ⟨("AppIcon-iOS.png", 1024), by decide, rfl⟩⟩

/-- C9: `generate_app_icons.py` writes `Contents.json` only after all 13
images: on every run that ends in an uncaught failure, the file at the
manifest path is exactly what it was before the run, and no write to the
manifest path occurs. -/
theorem main_uncaught_leaves_manifest (fails : String → Bool) (st : FState)
    (argv : List String)
    (h : (GenerateAppIcons.main fails argv st).2 = .uncaught) :
    (GenerateAppIcons.main fails argv st).1.files.lookup
        (pathJoin ("Assets.xcassets/AppIcon.appiconset") "Contents.json") =
      st.files.lookup (pathJoin ("Assets.xcassets/AppIcon.appiconset") "Contents.json") ∧
    pathJoin ("Assets.xcassets/AppIcon.appiconset") "Contents.json" ∉
      (newWrites st (GenerateAppIcons.main fails argv st).1).map Prod.fst := by
  by_cases hl : argv.length = 2
  · obtain ⟨a, b, rfl⟩ := List.length_eq_two.mp hl
    by_cases hex : st.pathExists b = true
    · cases hopen : GenerateAppIcons.imageOpen
          (st.makedirs ("Assets.xcassets/AppIcon.appiconset")) b with
      | error e =>
        simp [GenerateAppIcons.main, hex, GenerateAppIcons.generate_icons, hopen] at h
      | ok img =>
        cases hflag : (GenerateAppIcons.genLoop fails (GenerateAppIcons.toRGBA img)
            "Assets.xcassets/AppIcon.appiconset" GenerateAppIcons.icon_sizes
            (st.makedirs ("Assets.xcassets/AppIcon.appiconset"))).2 with
        | true =>
          simp [GenerateAppIcons.main, hex, GenerateAppIcons.generate_icons,
            hopen, hflag] at h
        | false =>
          have hne : ∀ p ∈ GenerateAppIcons.icon_sizes,
              pathJoin ("Assets.xcassets/AppIcon.appiconset") p.1 ≠
                pathJoin ("Assets.xcassets/AppIcon.appiconset") "Contents.json" := by decide
          have hmain : GenerateAppIcons.main fails [a, b] st =
              ((GenerateAppIcons.genLoop fails (GenerateAppIcons.toRGBA img)
                "Assets.xcassets/AppIcon.appiconset" GenerateAppIcons.icon_sizes
                (st.makedirs ("Assets.xcassets/AppIcon.appiconset"))).1, .uncaught) := by
            simp [GenerateAppIcons.main, hex, GenerateAppIcons.generate_icons,
              hopen, hflag]
          rw [hmain]
          constructor
          · rw [genLoop_lookup _ _ _ _ _ _ hne, makedirs_files]
          · obtain ⟨ws, hws, hmem⟩ := genLoop_trace_shape fails
              (GenerateAppIcons.toRGBA img)
              "Assets.xcassets/AppIcon.appiconset" GenerateAppIcons.icon_sizes
              (st.makedirs ("Assets.xcassets/AppIcon.appiconset"))
            rw [makedirs_trace] at hws
            have hnw : newWrites st (GenerateAppIcons.genLoop fails
                (GenerateAppIcons.toRGBA img)
                "Assets.xcassets/AppIcon.appiconset" GenerateAppIcons.icon_sizes
                (st.makedirs ("Assets.xcassets/AppIcon.appiconset"))).1 = ws := by
              rw [newWrites, hws, List.drop_left]
            rw [hnw]
            intro hctr
            obtain ⟨w, hw, hweq⟩ := List.mem_map.mp hctr
            obtain ⟨p, hp, hpe⟩ := hmem w hw
            exact hne p hp (hpe ▸ hweq)
    · have hex2 : st.pathExists b = false := by simpa using hex
      simp [GenerateAppIcons.main, hex2, GenerateAppIcons.generate_icons] at h
  · simp [GenerateAppIcons.main, hl] at h

/-- C9 witness: a run whose very first save fails leaves the manifest path
untouched. -/
theorem main_uncaught_leaves_manifest_witness :
    (GenerateAppIcons.main (fun _ => true) ["p", "icon.png"] iconState).1.files.lookup
        (pathJoin ("Assets.xcassets/AppIcon.appiconset") "Contents.json") =
      iconState.files.lookup
        (pathJoin ("Assets.xcassets/AppIcon.appiconset") "Contents.json") ∧
    pathJoin ("Assets.xcassets/AppIcon.appiconset") "Contents.json" ∉
      (newWrites iconState
        (GenerateAppIcons.main (fun _ => true) ["p", "icon.png"] iconState).1).map Prod.fst :=
  main_uncaught_leaves_manifest (fun _ => true) iconState ["p", "icon.png"] (by decide)

theorem logoFilename_1x : DownloadGoogleLogo.logoFilename ("1x") = "google-logo.png" := by
  decide

theorem logoFilename_2x : DownloadGoogleLogo.logoFilename ("2x") = "google-logo@2x.png" := by
  decide

theorem logoFilename_3x : DownloadGoogleLogo.logoFilename ("3x") = "google-logo@3x.png" := by
  decide

theorem print_files (st : FState) (s : String) : (st.print s).files = st.files :=
  rfl

theorem makedirs_dirs (st : FState) (d : String) :
    (st.makedirs d).dirs = if st.dirs.contains d then st.dirs else st.dirs ++ [d] := by
  unfold FState.makedirs
  split <;> rfl

theorem makedirs_contains_self (st : FState) (d : String) :
    ((st.makedirs d).dirs).contains d = true := by
  unfold FState.makedirs
  by_cases h : st.dirs.contains d = true
  · simp only [h, if_true]
  · simp only [h, Bool.false_eq_true, if_false]
    simp

theorem download_trace (st : FState) :
    (DownloadGoogleLogo.download_google_logo st).trace =
      st.trace ++ DownloadGoogleLogo.expectedLogoWrites := by
  simp [DownloadGoogleLogo.download_google_logo, DownloadGoogleLogo.logoLoop,
    DownloadGoogleLogo.sizes, logoFilename_1x, logoFilename_2x, logoFilename_3x,
    FState.write, FState.print, makedirs_trace, DownloadGoogleLogo.expectedLogoWrites]

theorem download_dirs (st : FState) :
    (DownloadGoogleLogo.download_google_logo st).dirs =
      (st.makedirs DownloadGoogleLogo.google_logo_dir).dirs := by
  simp [DownloadGoogleLogo.download_google_logo, DownloadGoogleLogo.logoLoop,
    DownloadGoogleLogo.sizes, logoFilename_1x, logoFilename_2x, logoFilename_3x,
    FState.write, FState.print]

theorem download_files_lookup (st : FState) (p : String) :
    (DownloadGoogleLogo.download_google_logo st).files.lookup p =
      if p = pathJoin DownloadGoogleLogo.google_logo_dir ("Contents.json") then
        some (File.manifest DownloadGoogleLogo.contents)
      else if p = pathJoin DownloadGoogleLogo.google_logo_dir ("google-logo@3x.png") then
        some (File.image (Img.new ("RGBA") 72 72 DownloadGoogleLogo.white))
      else if p = pathJoin DownloadGoogleLogo.google_logo_dir ("google-logo@2x.png") then
        some (File.image (Img.new ("RGBA") 48 48 DownloadGoogleLogo.white))
      else if p = pathJoin DownloadGoogleLogo.google_logo_dir ("google-logo.png") then
        some (File.image (Img.new ("RGBA") 24 24 DownloadGoogleLogo.white))
      else st.files.lookup p := by
  simp only [DownloadGoogleLogo.download_google_logo, DownloadGoogleLogo.logoLoop,
    DownloadGoogleLogo.sizes, logoFilename_1x, logoFilename_2x, logoFilename_3x,
    print_files]
  rw [FState.lookup_write]
  simp only [print_files]
  rw [FState.lookup_write]
  simp only [print_files]
  rw [FState.lookup_write]
  simp only [print_files]
  rw [FState.lookup_write, makedirs_files]

theorem filter_swap {α : Type} (L : List α) (p q : α → Bool) :
    (L.filter p).filter q = (L.filter q).filter p := by
  induction L with
  | nil => rfl
  | cons a l ih =>
    by_cases hp : p a = true <;> by_cases hq : q a = true <;>
      simp [List.filter_cons, hp, hq, ih]

theorem filesInDir_write (d : String) (st : FState) (p : String) (f : File) :
    filesInDir d ((st.write p f).files) =
      (if (d ++ "/").toList.isPrefixOf p.toList then [(p, f)] else [])
        ++ (filesInDir d st.files).filter (fun e => !(e.1 == p)) := by
  unfold filesInDir FState.write
  by_cases hs : ((d ++ "/").toList.isPrefixOf p.toList) = true
  · simp only [List.filter_cons, hs, if_true, List.cons_append, List.nil_append]
    rw [filter_swap]
  · simp only [List.filter_cons, hs, Bool.false_eq_true, if_false, List.nil_append]
    rw [filter_swap]

theorem download_filesInDir_from_empty (st : FState)
    (h : filesInDir DownloadGoogleLogo.google_logo_dir st.files = []) :
    filesInDir DownloadGoogleLogo.google_logo_dir
      (DownloadGoogleLogo.download_google_logo st).files = logoDirListing := by
  simp only [DownloadGoogleLogo.download_google_logo, DownloadGoogleLogo.logoLoop,
    DownloadGoogleLogo.sizes, logoFilename_1x, logoFilename_2x, logoFilename_3x,
    print_files]
  simp only [filesInDir_write, print_files, makedirs_files]
  rw [h]
  decide

theorem download_filesInDir_from_listing (st : FState)
    (h : filesInDir DownloadGoogleLogo.google_logo_dir st.files = logoDirListing) :
    filesInDir DownloadGoogleLogo.google_logo_dir
      (DownloadGoogleLogo.download_google_logo st).files = logoDirListing := by
  simp only [DownloadGoogleLogo.download_google_logo, DownloadGoogleLogo.logoLoop,
    DownloadGoogleLogo.sizes, logoFilename_1x, logoFilename_2x, logoFilename_3x,
    print_files]
  simp only [filesInDir_write, print_files, makedirs_files]
  rw [h]
  decide

/-- C6: given no input, `download_google_logo` creates the fixed asset
directory (an existing directory is not an error), writes exactly three
blank RGBA square images of 24, 48 and 72 pixels for scales 1x, 2x and 3x,
and writes a manifest whose `images` list holds exactly those three
filenames, each with idiom `universal` and the matching scale. -/
theorem download_google_logo_spec (st : FState) :
    newWrites st (DownloadGoogleLogo.download_google_logo st) =
      DownloadGoogleLogo.expectedLogoWrites ∧
    (DownloadGoogleLogo.download_google_logo st).dirs =
      (if st.dirs.contains DownloadGoogleLogo.google_logo_dir then st.dirs
        else st.dirs ++ [DownloadGoogleLogo.google_logo_dir]) ∧
    DownloadGoogleLogo.contents.images.map (fun e => (e.filename, e.idiom, e.scale)) =
      [("google-logo.png", "universal", some ("1x")),
       ("google-logo@2x.png", "universal", some ("2x")),
       ("google-logo@3x.png", "universal", some ("3x"))] ∧
    DownloadGoogleLogo.contents.images.length = 3 := by
  refine ⟨?_, ?_, by decide, by decide⟩
  · rw [newWrites, download_trace, List.drop_left]
  · rw [download_dirs, makedirs_dirs]

/-- C7: running `download_google_logo` twice leaves the same filesystem as
running it once: every path holds the same file after the second run as
after the first, the directory set is unchanged, and from an empty target
directory either run leaves exactly 3 image files plus 1 manifest there
(the second run overwrites, it does not accumulate). -/
theorem download_google_logo_idempotent (st : FState) :
    (∀ p : String,
      (DownloadGoogleLogo.download_google_logo
          (DownloadGoogleLogo.download_google_logo st)).files.lookup p =
        (DownloadGoogleLogo.download_google_logo st).files.lookup p) ∧
    (DownloadGoogleLogo.download_google_logo
        (DownloadGoogleLogo.download_google_logo st)).dirs =
      (DownloadGoogleLogo.download_google_logo st).dirs ∧
    (filesInDir DownloadGoogleLogo.google_logo_dir st.files = [] →
      filesInDir DownloadGoogleLogo.google_logo_dir
          (DownloadGoogleLogo.download_google_logo st).files = logoDirListing ∧
      filesInDir DownloadGoogleLogo.google_logo_dir
          (DownloadGoogleLogo.download_google_logo
            (DownloadGoogleLogo.download_google_logo st)).files = logoDirListing ∧
      (logoDirListing.filter (fun e => isImageFile e.2)).length = 3 ∧
      (logoDirListing.filter (fun e => isManifestFile e.2)).length = 1 ∧
      logoDirListing.length = 4) := by
  refine ⟨?_, ?_, ?_⟩
  · intro p
    simp only [download_files_lookup]
    split_ifs <;> rfl
  · rw [download_dirs, download_dirs st]
    have hc : ((DownloadGoogleLogo.download_google_logo st).dirs).contains
        DownloadGoogleLogo.google_logo_dir = true := by
      rw [download_dirs]
      exact makedirs_contains_self st DownloadGoogleLogo.google_logo_dir
    rw [makedirs_dirs, if_pos hc, download_dirs]
  · intro h
    have h1 := download_filesInDir_from_empty st h
    exact ⟨h1, download_filesInDir_from_listing _ h1, by decide, by decide, by decide⟩

/-- C7 witness: both runs from the empty filesystem leave the same
directory listing of exactly 3 images plus 1 manifest. -/
theorem download_google_logo_idempotent_witness :
    filesInDir DownloadGoogleLogo.google_logo_dir
        (DownloadGoogleLogo.download_google_logo emptyState).files = logoDirListing ∧
    filesInDir DownloadGoogleLogo.google_logo_dir
        (DownloadGoogleLogo.download_google_logo
          (DownloadGoogleLogo.download_google_logo emptyState)).files = logoDirListing ∧
    (DownloadGoogleLogo.download_google_logo
        (DownloadGoogleLogo.download_google_logo emptyState)).dirs =
      (DownloadGoogleLogo.download_google_logo emptyState).dirs := by
  have h := download_google_logo_idempotent emptyState
  have h3 := h.2.2 (by decide)
  exact ⟨h3.1, h3.2.1, h.2.1⟩

/-- C10: every placeholder image written by `download_google_logo` has all
its pixels equal to fully opaque white, and the files are named
`google-logo.png` (1x, no suffix), `google-logo@2x.png` and
`google-logo@3x.png`. -/
theorem logo_images_white (st : FState) :
    imageWrites (newWrites st (DownloadGoogleLogo.download_google_logo st)) =
      [(pathJoin DownloadGoogleLogo.google_logo_dir ("google-logo.png"),
          Img.new ("RGBA") 24 24 DownloadGoogleLogo.white),
       (pathJoin DownloadGoogleLogo.google_logo_dir ("google-logo@2x.png"),
          Img.new ("RGBA") 48 48 DownloadGoogleLogo.white),
       (pathJoin DownloadGoogleLogo.google_logo_dir ("google-logo@3x.png"),
          Img.new ("RGBA") 72 72 DownloadGoogleLogo.white)] ∧
    DownloadGoogleLogo.logoFilename ("1x") = "google-logo.png" ∧
    DownloadGoogleLogo.logoFilename ("2x") = "google-logo@2x.png" ∧
    DownloadGoogleLogo.logoFilename ("3x") = "google-logo@3x.png" ∧
    ∀ pr ∈ imageWrites (newWrites st (DownloadGoogleLogo.download_google_logo st)),
      ∀ x y : Nat, x < pr.2.width → y < pr.2.height →
        pr.2.pixelAt x y = some ⟨255, 255, 255, 255⟩ := by
  have hnw : newWrites st (DownloadGoogleLogo.download_google_logo st) =
      DownloadGoogleLogo.expectedLogoWrites := by
    rw [newWrites, download_trace, List.drop_left]
  refine ⟨by rw [hnw]; decide, by decide, by decide, by decide, ?_⟩
  intro pr hpr x y hx hy
  rw [hnw] at hpr
  simp [imageWrites, DownloadGoogleLogo.expectedLogoWrites] at hpr
  rcases hpr with rfl | rfl | rfl
  · simp only [Img.width, Img.height] at hx hy
    simp [Img.pixelAt, hx, hy, DownloadGoogleLogo.white]
  · simp only [Img.width, Img.height] at hx hy
    simp [Img.pixelAt, hx, hy, DownloadGoogleLogo.white]
  · simp only [Img.width, Img.height] at hx hy
    simp [Img.pixelAt, hx, hy, DownloadGoogleLogo.white]

/-- C10 witness: the run from the empty filesystem writes the three white
squares, and the 24-pixel one is white at pixel (0, 0). -/
theorem logo_images_white_witness :
    imageWrites (newWrites emptyState
        (DownloadGoogleLogo.download_google_logo emptyState)) =
      [(pathJoin DownloadGoogleLogo.google_logo_dir ("google-logo.png"),
          Img.new ("RGBA") 24 24 DownloadGoogleLogo.white),
       (pathJoin DownloadGoogleLogo.google_logo_dir ("google-logo@2x.png"),
          Img.new ("RGBA") 48 48 DownloadGoogleLogo.white),
       (pathJoin DownloadGoogleLogo.google_logo_dir ("google-logo@3x.png"),
          Img.new ("RGBA") 72 72 DownloadGoogleLogo.white)] ∧
    (Img.new ("RGBA") 24 24 DownloadGoogleLogo.white).pixelAt 0 0 =
      some ⟨255, 255, 255, 255⟩ := by
  have h := logo_images_white emptyState
  refine ⟨h.1, ?_⟩
  have hm : (pathJoin DownloadGoogleLogo.google_logo_dir ("google-logo.png"),
      Img.new ("RGBA") 24 24 DownloadGoogleLogo.white) ∈
      imageWrites (newWrites emptyState
        (DownloadGoogleLogo.download_google_logo emptyState)) := by
    rw [h.1]
    exact List.mem_cons_self _ _
  exact h.2.2.2.2 _ hm 0 0 (by decide) (by decide)
